import Mathlib

/-!
Verification of the schema-tolerant data-binding layer of the marketing
analytics dashboard (`app.py`).

The program loads eleven CSV datasets into pandas DataFrames, resolves
physical column names per dataset by direct membership tests, computes
defensive aggregates (sum, mean, max, count, grouped sum, value counts),
and builds chart descriptions (bar, pie, histogram, box, scatter, funnel,
heatmap) per selected view.

Embedding choices:
- a pandas cell is `Cell`: a rational number, a text value, or `na`
  (missing / NaN as produced by `read_csv` for an absent value);
- a DataFrame is `Dataset`: a column-name list plus a row list, each row an
  association list from column name to cell; reading an absent column in a
  row yields `na`;
- pandas `Series.sum` skips missing values (empty sum is `0`), while
  `Series.mean` of an empty/all-missing column is NaN, modelled as `none`;
- `DataFrame.nlargest(n, c)` is a stable descending sort by column `c`
  followed by truncation to `n` (pandas `keep='first'`);
- `DataFrame.sort_values(c)` sorts ascending by column `c` with missing
  values last (pandas `na_position='last'`);
- the Streamlit script is a pure render pass: the view dispatch is the
  `if`/`elif` chain over the selectbox value, and `st.cache_data`/`st.stop`
  make the load step a single `Option` returning computation.
-/

namespace Dashboard

/-- A cell of a loaded table: a numeric value, a text value, or a missing
value (pandas NaN). -/
inductive Cell where
  | num (q : ℚ)
  | str (s : String)
  | na
deriving DecidableEq

/-- A row of a table: an association list from column name to cell value. -/
abbrev Row := List (String × Cell)

/-- Reading column `c` of a row; an absent column reads as a missing value
(pandas yields NaN for cells absent from a row). -/
def Row.get (r : Row) (c : String) : Cell :=
  match r.find? (fun p => p.1 = c) with
  | some p => p.2
  | none => Cell.na

/-- The numeric content of a cell, if any. -/
def Cell.toNum : Cell → Option ℚ
  | .num q => some q
  | _ => none

/-- A loaded DataFrame: ordered column names and ordered rows. -/
structure Dataset where
  cols : List String
  rows : List Row
deriving DecidableEq

/-- Column access `df[c]`: the column `c` as the list of its cells in row order. -/
def Dataset.col (d : Dataset) (c : String) : List Cell :=
  d.rows.map (fun r => r.get c)

/-! ## Column resolution

`app.py` resolves the logical "revenue" field for the Overview KPI
(lines 125-130) by a chain of membership tests: `'Revenue' in columns`
first, `'Sales' in columns` second, nothing else. -/

/-- The Overview revenue-KPI column chain of `app.py` lines 125-130:
`if 'Revenue' in data['product_sales'].columns: ... elif 'Sales' in
data['product_sales'].columns: ...` (no further branch). -/
def resolve_revenue (d : Dataset) : Option String :=
  if "Revenue" ∈ d.cols then some "Revenue"
  else if "Sales" ∈ d.cols then some "Sales"
  else none

/-- Modelled from the spec: generic alias resolution, "the first alias
present in priority order wins". Used to compare the spec's declared
priority list against the membership chain the code actually has. -/
def resolveAliases (aliases : List String) (d : Dataset) : Option String :=
  aliases.find? (fun a => decide (a ∈ d.cols))

/-- The alias priority list the spec declares for logical field "revenue". -/
def specRevenueAliases : List String := ["Revenue", "Sales", "Total_Sales", "Amount"]

/-- A dataset whose only candidate revenue column is `Amount`. -/
def amountOnly : Dataset := ⟨["Product", "Amount"], []⟩

/-- C2 counterexample: against a dataset whose only candidate column is
`Amount`, the code resolves the revenue field to nothing (the KPI branch
chain tests only `Revenue` and `Sales`), whereas resolution with the
spec's declared four-alias priority list would return `Amount`. -/
theorem C2_counterexample :
    resolve_revenue amountOnly = none ∧
    resolveAliases specRevenueAliases amountOnly = some "Amount" := by
  constructor <;> decide

/-- C2 amended: the code's effective alias priority list is
`["Revenue", "Sales"]` — `Total_Sales` and `Amount` are never consulted.
The first alias present in that order wins (so with several candidates the
highest-priority one, and only it, is used), and a dataset with neither
`Revenue` nor `Sales` is unresolved. The chain coincides with generic
first-match resolution over `["Revenue", "Sales"]`. -/
theorem C2_amended (d : Dataset) :
    ("Revenue" ∈ d.cols → resolve_revenue d = some "Revenue") ∧
    ("Revenue" ∉ d.cols → "Sales" ∈ d.cols → resolve_revenue d = some "Sales") ∧
    ("Revenue" ∉ d.cols → "Sales" ∉ d.cols → resolve_revenue d = none) ∧
    resolve_revenue d = resolveAliases ["Revenue", "Sales"] d := by
  refine ⟨fun h1 => ?_, fun h1 h2 => ?_, fun h1 h2 => ?_, ?_⟩
  · simp [resolve_revenue, h1]
  · simp [resolve_revenue, h1, h2]
  · simp [resolve_revenue, h1, h2]
  · by_cases h1 : "Revenue" ∈ d.cols <;> by_cases h2 : "Sales" ∈ d.cols <;>
      simp [resolve_revenue, resolveAliases, List.find?, h1, h2]

/-- C2 witness: the amended resolution behaviour at concrete datasets. -/
theorem C2_witness :
    resolve_revenue ⟨["Revenue", "Sales"], []⟩ = some "Revenue" ∧
    resolve_revenue ⟨["Sales", "Amount"], []⟩ = some "Sales" ∧
    resolve_revenue ⟨["Product"], []⟩ = none :=
  ⟨(C2_amended ⟨["Revenue", "Sales"], []⟩).1 (by decide),
   (C2_amended ⟨["Sales", "Amount"], []⟩).2.1 (by decide) (by decide),
   (C2_amended ⟨["Product"], []⟩).2.2.1 (by decide) (by decide)⟩

/-! ## Metric engine

pandas aggregates as used by the KPI cards: `Series.sum()` skips missing
values and sums an empty column to `0`; `Series.mean()` of a column with
no numeric values is NaN (modelled `none`); the NaN then flows into the
f-string of the `st.metric` call and is rendered (as "nan"). -/

/-- pandas `series.sum()`: missing values are skipped, the empty sum is `0`. -/
def colSum (cells : List Cell) : ℚ :=
  (cells.filterMap Cell.toNum).sum

/-- pandas `series.mean()`: arithmetic mean of the non-missing values; NaN
(modelled `none`) when there are none. -/
def colMean (cells : List Cell) : Option ℚ :=
  let nums := cells.filterMap Cell.toNum
  if nums.length = 0 then none else some (nums.sum / nums.length)

/-- pandas `series.max()`: maximum of the non-missing values; NaN when none. -/
def colMax (cells : List Cell) : Option ℚ :=
  (cells.filterMap Cell.toNum).foldl (fun acc q =>
    match acc with
    | none => some q
    | some m => some (max m q)) none

/-- Outcome of one `st.metric` KPI site: either a metric card is rendered
(with `none` standing for a NaN value carried into the formatted text), or
the site's guard failed and nothing is rendered at all. -/
inductive KPI where
  | shown (label : String) (value : Option ℚ)
  | skipped
deriving DecidableEq

/-- A rendered KPI card whose value is NaN: the f-string formats the NaN
into the displayed text instead of an "unavailable" marker. -/
def KPI.showsNaN : KPI → Bool
  | .shown _ none => true
  | _ => false

/-- Whether the KPI site rendered anything at all. -/
def KPI.isRendered : KPI → Bool
  | .shown _ _ => true
  | .skipped => false

/-- Site at `app.py` lines 136-142 (Overview, col4): mean of `ConversionRate` if
that column exists, else sum of `Conversions` if that column exists, else
nothing is rendered. -/
def avg_conversion_kpi (d : Dataset) : KPI :=
  if "ConversionRate" ∈ d.cols then
    KPI.shown "Avg Conversion Rate" (colMean (d.col "ConversionRate"))
  else if "Conversions" ∈ d.cols then
    KPI.shown "Total Conversions" (some (colSum (d.col "Conversions")))
  else KPI.skipped

/-- Site at `app.py` lines 436-439 (Lead Scoring, col1): mean of `LeadScore` if the
column exists, else nothing is rendered. -/
def avg_score_kpi (d : Dataset) : KPI :=
  if "LeadScore" ∈ d.cols then
    KPI.shown "Average Lead Score" (colMean (d.col "LeadScore"))
  else KPI.skipped

/-- Site at `app.py` lines 124-130 (Overview, col2): sum of `Revenue` if present,
else sum of `Sales` if present, else nothing is rendered. -/
def total_revenue_kpi (d : Dataset) : KPI :=
  if "Revenue" ∈ d.cols then
    KPI.shown "Total Revenue" (some (colSum (d.col "Revenue")))
  else if "Sales" ∈ d.cols then
    KPI.shown "Total Sales" (some (colSum (d.col "Sales")))
  else KPI.skipped

/-- A funnel dataset with a `ConversionRate` column and zero rows. -/
def zeroRowFunnel : Dataset := ⟨["Stage", "ConversionRate"], []⟩

/-- C3 counterexample: the mean over a zero-row dataset whose
`ConversionRate` column is present is NaN, and that NaN is carried into
the rendered metric card ("nan" is displayed) — the outcome is a shown
NaN, not an "unavailable" marker, so the NaN does propagate. -/
theorem C3_counterexample :
    avg_conversion_kpi zeroRowFunnel = KPI.shown "Avg Conversion Rate" none ∧
    (avg_conversion_kpi zeroRowFunnel).showsNaN = true := by
  constructor <;> decide

/-- C3 amended: over a zero-row dataset the mean aggregate is NaN and the
NaN is formatted into the rendered KPI (it is not suppressed and not
converted to "unavailable"), both at the conversion-rate site and at the
lead-score site; an aggregation on an unresolved column is skipped
entirely — nothing is rendered and the outcome is independent of the row
data (no rows are read). -/
theorem C3_amended :
    (∀ cols : List String, "ConversionRate" ∈ cols →
      avg_conversion_kpi ⟨cols, []⟩ = KPI.shown "Avg Conversion Rate" none) ∧
    (∀ cols : List String, "LeadScore" ∈ cols →
      avg_score_kpi ⟨cols, []⟩ = KPI.shown "Average Lead Score" none) ∧
    (∀ (cols : List String) (rows rows' : List Row),
      "ConversionRate" ∉ cols → "Conversions" ∉ cols →
      avg_conversion_kpi ⟨cols, rows⟩ = KPI.skipped ∧
      avg_conversion_kpi ⟨cols, rows⟩ = avg_conversion_kpi ⟨cols, rows'⟩) := by
  refine ⟨fun cols h => ?_, fun cols h => ?_, fun cols rows rows' h1 h2 => ⟨?_, ?_⟩⟩
  · simp [avg_conversion_kpi, h, Dataset.col, colMean]
  · simp [avg_score_kpi, h, Dataset.col, colMean]
  · simp [avg_conversion_kpi, h1, h2]
  · simp [avg_conversion_kpi, h1, h2]

/-- C3 witness: the amended behaviour at concrete datasets. -/
theorem C3_witness :
    avg_conversion_kpi ⟨["Stage", "ConversionRate"], []⟩ =
      KPI.shown "Avg Conversion Rate" none ∧
    avg_conversion_kpi ⟨["Stage"], [[("Stage", Cell.str "Visit")]]⟩ = KPI.skipped :=
  ⟨C3_amended.1 ["Stage", "ConversionRate"] (by decide),
   (C3_amended.2.2 ["Stage"] [[("Stage", Cell.str "Visit")]] [] (by decide) (by decide)).1⟩

/-! ## Loader

`load_data` (`app.py` lines 52-83) reads the eleven CSV files inside a
single `try` block. The first failing `pd.read_csv` raises; the `except`
arm reports the error and returns `None`, discarding every dataset that
had already been read. Storage is modelled as one optional dataset per
declared source path (`none` = the file is missing and the read raises).
Lines 86-89 then run `data = load_data()` and `st.stop()` when `data is
None`. -/

/-- The in-memory result of a fully successful load: the eleven frames. -/
structure DataStore where
  campaign_performance : Dataset
  channel_attribution : Dataset
  correlation_matrix : Dataset
  customer_data : Dataset
  customer_journey : Dataset
  feature_importance : Dataset
  funnel_data : Dataset
  geographic_data : Dataset
  lead_scoring_results : Dataset
  learning_curve : Dataset
  product_sales : Dataset
deriving DecidableEq

/-- The storage the loader reads from: one optional dataset per source
file under `Dataset/`; `none` means the file is missing, so the
corresponding `pd.read_csv` raises. -/
structure Storage where
  campaign_performance : Option Dataset
  channel_attribution : Option Dataset
  correlation_matrix : Option Dataset
  customer_data : Option Dataset
  customer_journey : Option Dataset
  feature_importance : Option Dataset
  funnel_data : Option Dataset
  geographic_data : Option Dataset
  lead_scoring_results : Option Dataset
  learning_curve : Option Dataset
  product_sales : Option Dataset
deriving DecidableEq

/-- Function `load_data` of `app.py` lines 52-83: the sequential reads inside one
`try`; the first missing source aborts the whole block and the `except`
arm returns `None`. -/
def load_data (s : Storage) : Option DataStore := do
  let campaign_performance ← s.campaign_performance
  let channel_attribution ← s.channel_attribution
  let correlation_matrix ← s.correlation_matrix
  let customer_data ← s.customer_data
  let customer_journey ← s.customer_journey
  let feature_importance ← s.feature_importance
  let funnel_data ← s.funnel_data
  let geographic_data ← s.geographic_data
  let lead_scoring_results ← s.lead_scoring_results
  let learning_curve ← s.learning_curve
  let product_sales ← s.product_sales
  return ⟨campaign_performance, channel_attribution, correlation_matrix,
    customer_data, customer_journey, feature_importance, funnel_data,
    geographic_data, lead_scoring_results, learning_curve, product_sales⟩

/-- Lines 86-89: `data = load_data()` followed by `st.stop()` when `data`
is `None` — the process halts exactly when the loader returned `None`. -/
def halts (s : Storage) : Bool :=
  (load_data s).isNone

/-- An empty but well-formed dataset, standing for a present source. -/
def emptyDS : Dataset := ⟨[], []⟩

/-- Storage with exactly one of the eleven sources missing
(`Dataset/funnel_data.csv`) and the other ten present. -/
def oneMissing : Storage :=
  ⟨some emptyDS, some emptyDS, some emptyDS, some emptyDS, some emptyDS,
   some emptyDS, none, some emptyDS, some emptyDS, some emptyDS, some emptyDS⟩

/-- Storage with all eleven sources present. -/
def allPresent : Storage :=
  ⟨some emptyDS, some emptyDS, some emptyDS, some emptyDS, some emptyDS,
   some emptyDS, some emptyDS, some emptyDS, some emptyDS, some emptyDS,
   some emptyDS⟩

/-- C1 counterexample: with exactly one source missing (ten loadable
datasets available), the loader returns `None` — no per-dataset outcomes,
no ten successful datasets — and the process halts, contradicting the
claim that one missing source yields ten Datasets plus one recorded
failure without halting. -/
theorem C1_counterexample :
    load_data oneMissing = none ∧ halts oneMissing = true := by
  constructor <;> decide

set_option maxHeartbeats 2000000 in
/-- C1 amended: loading is all-or-nothing. The single `try`/`except`
around all eleven reads makes the load succeed exactly when every one of
the eleven sources is present; any missing source discards all datasets
(the loader returns `None`, with no per-dataset outcome record), and the
process halts exactly when the loader returned `None`. -/
theorem C1_amended (s : Storage) :
    ((load_data s).isSome ↔
      s.campaign_performance.isSome ∧ s.channel_attribution.isSome ∧
      s.correlation_matrix.isSome ∧ s.customer_data.isSome ∧
      s.customer_journey.isSome ∧ s.feature_importance.isSome ∧
      s.funnel_data.isSome ∧ s.geographic_data.isSome ∧
      s.lead_scoring_results.isSome ∧ s.learning_curve.isSome ∧
      s.product_sales.isSome) ∧
    (halts s = true ↔ load_data s = none) := by
  obtain ⟨c1, c2, c3, c4, c5, c6, c7, c8, c9, c10, c11⟩ := s
  constructor
  · cases c1
    · simp [load_data]
    cases c2
    · simp [load_data]
    cases c3
    · simp [load_data]
    cases c4
    · simp [load_data]
    cases c5
    · simp [load_data]
    cases c6
    · simp [load_data]
    cases c7
    · simp [load_data]
    cases c8
    · simp [load_data]
    cases c9
    · simp [load_data]
    cases c10
    · simp [load_data]
    cases c11
    · simp [load_data]
    simp [load_data]
  · simp [halts, Option.isNone_iff_eq_none]

/-- C1 witness: the amended equivalence at concrete storages — with all
eleven sources present the load succeeds, and at the one-missing storage
the halt is exactly the `None` load result. -/
theorem C1_witness :
    (load_data allPresent).isSome ∧ halts oneMissing = true :=
  ⟨((C1_amended allPresent).1).mpr (by decide),
   ((C1_amended oneMissing).2).mpr (by decide)⟩

/-! ## Chart spec builder

Each chart site of `app.py` is an `if`-guarded plotly construction; the
guard is a membership test on the columns, and a failed guard renders
nothing (there is no placeholder element in the code). A chart spec
records the kind and the cell lists bound to its fields. -/

/-- A declarative chart description: the kind and its data bindings. -/
inductive ChartSpec where
  | bar (xvals yvals : List Cell)
  | barH (xvals yvals : List Cell)
  | pie (values labels : List Cell)
  | histogram (vals : List Cell) (nbins : Nat)
  | box (vals : List Cell)
  | scatter (xvals yvals : List Cell)
  | funnel (yStages xCounts : List Cell)
  | heatmap (rows : List Row)
deriving DecidableEq

/-- The stage bindings of a funnel spec. -/
def ChartSpec.funnelStages : ChartSpec → List Cell
  | .funnel y _ => y
  | _ => []

/-- The count bindings of a funnel spec. -/
def ChartSpec.funnelCounts : ChartSpec → List Cell
  | .funnel _ x => x
  | _ => []

/-- Site at `app.py` lines 410-416 (Customer Journey): `go.Funnel` with
`y=funnel_data['Stage']`, `x=funnel_data['Count']`, guarded by membership
of both columns; the column series are bound as-is, in row order. -/
def funnel_chart (d : Dataset) : Option ChartSpec :=
  if "Stage" ∈ d.cols ∧ "Count" ∈ d.cols then
    some (ChartSpec.funnel (d.col "Stage") (d.col "Count"))
  else none

/-- Site at `app.py` lines 496-507 (Correlation Analysis): `px.imshow` applied to
the whole `correlation_matrix` frame — unconditional, no column
resolution and no guard. -/
def correlation_heatmap (d : Dataset) : ChartSpec :=
  ChartSpec.heatmap d.rows

/-- C8 confirmed: whenever the funnel dataset has both the `Stage` and the
`Count` column, the funnel chart binds exactly the two column series, and
the `i`-th stage of the chart is the `Stage` cell of the `i`-th source
row — stage order equals source row order, with no re-sorting. -/
theorem C8_funnel_row_order (d : Dataset)
    (h1 : "Stage" ∈ d.cols) (h2 : "Count" ∈ d.cols) :
    funnel_chart d = some (ChartSpec.funnel (d.rows.map (fun r => r.get "Stage"))
      (d.rows.map (fun r => r.get "Count"))) ∧
    (d.col "Stage").length = d.rows.length ∧
    ∀ i : Fin d.rows.length,
      (d.col "Stage").get ⟨i, by simp [Dataset.col]⟩ = (d.rows.get i).get "Stage" := by
  refine ⟨by simp [funnel_chart, h1, h2, Dataset.col], by simp [Dataset.col], fun i => ?_⟩
  simp [Dataset.col]

/-- C8 witness: a concrete three-stage funnel dataset, stages bound in row
order. -/
theorem C8_witness :
    funnel_chart ⟨["Stage", "Count"],
      [[("Stage", Cell.str "Visit"), ("Count", Cell.num 100)],
       [("Stage", Cell.str "Cart"), ("Count", Cell.num 40)],
       [("Stage", Cell.str "Purchase"), ("Count", Cell.num 10)]]⟩ =
    some (ChartSpec.funnel [Cell.str "Visit", Cell.str "Cart", Cell.str "Purchase"]
      [Cell.num 100, Cell.num 40, Cell.num 10]) := by
  have h := (C8_funnel_row_order ⟨["Stage", "Count"],
      [[("Stage", Cell.str "Visit"), ("Count", Cell.num 100)],
       [("Stage", Cell.str "Cart"), ("Count", Cell.num 40)],
       [("Stage", Cell.str "Purchase"), ("Count", Cell.num 10)]]⟩
    (by decide) (by decide)).1
  rw [h]
  decide

/-! ## Feature importance sorting (`app.py` lines 477-489)

`sort_values('Importance', ascending=True)`: ascending sort by the
`Importance` column, missing values last (`na_position='last'`), fed to a
horizontal bar chart with `x='Importance'`, `y='Feature'`. -/

/-- The ascending sort key of a row: its numeric `Importance`, with a
missing value sorting last (pandas `na_position='last'`). -/
def impKey (r : Row) : WithTop ℚ :=
  match Cell.toNum (r.get "Importance") with
  | some q => (q : WithTop ℚ)
  | none => ⊤

/-- The comparison `sort_values('Importance', ascending=True)` sorts by. -/
def ascImportance (a b : Row) : Bool :=
  decide (impKey a ≤ impKey b)

/-- Variable `sorted_features` of `app.py` line 481: the rows sorted ascending by
`Importance` (a fresh sorted copy; `sort_values` does not modify its
input). -/
def sorted_features (d : Dataset) : List Row :=
  d.rows.mergeSort ascImportance

/-- Lines 477-489: the horizontal bar chart over the sorted rows, guarded
by membership of `Feature` and `Importance`. -/
def feature_chart (d : Dataset) : Option ChartSpec :=
  if "Feature" ∈ d.cols ∧ "Importance" ∈ d.cols then
    some (ChartSpec.barH ((sorted_features d).map (fun r => r.get "Importance"))
      ((sorted_features d).map (fun r => r.get "Feature")))
  else none

/-- Relation `ascImportance` is transitive. -/
theorem ascImportance_trans (a b c : Row) :
    ascImportance a b = true → ascImportance b c = true → ascImportance a c = true := by
  simp only [ascImportance, decide_eq_true_eq]
  exact le_trans

/-- Relation `ascImportance` is total. -/
theorem ascImportance_total (a b : Row) :
    (ascImportance a b || ascImportance b a) = true := by
  simp only [ascImportance, Bool.or_eq_true, decide_eq_true_eq]
  exact le_total _ _

/-- C10 confirmed: whenever the feature-importance dataset has both a
`Feature` and an `Importance` column, the rows bound to the bar chart are
`sorted_features d`, which is ordered by ascending `Importance` key and is
a permutation of the source rows — the chart order does not depend on the
source order beyond tie-breaking. -/
theorem C10_feature_chart_sorted (d : Dataset)
    (h1 : "Feature" ∈ d.cols) (h2 : "Importance" ∈ d.cols) :
    feature_chart d = some (ChartSpec.barH
      ((sorted_features d).map (fun r => r.get "Importance"))
      ((sorted_features d).map (fun r => r.get "Feature"))) ∧
    (sorted_features d).Pairwise (fun a b => impKey a ≤ impKey b) ∧
    (sorted_features d).Perm d.rows := by
  refine ⟨by simp [feature_chart, h1, h2], ?_, List.mergeSort_perm d.rows ascImportance⟩
  have hs := List.sorted_mergeSort ascImportance_trans ascImportance_total d.rows
  exact hs.imp (fun h => by simpa [ascImportance] using h)

/-- C10 witness: the sortedness and permutation facts at a concrete
dataset whose rows arrive in non-ascending importance order. -/
theorem C10_witness :
    (sorted_features ⟨["Feature", "Importance"],
      [[("Feature", Cell.str "age"), ("Importance", Cell.num 3)],
       [("Feature", Cell.str "income"), ("Importance", Cell.num 1)]]⟩).Pairwise
      (fun a b => impKey a ≤ impKey b) ∧
    (sorted_features ⟨["Feature", "Importance"],
      [[("Feature", Cell.str "age"), ("Importance", Cell.num 3)],
       [("Feature", Cell.str "income"), ("Importance", Cell.num 1)]]⟩).Perm
      [[("Feature", Cell.str "age"), ("Importance", Cell.num 3)],
       [("Feature", Cell.str "income"), ("Importance", Cell.num 1)]] :=
  ⟨(C10_feature_chart_sorted _ (by decide) (by decide)).2.1,
   (C10_feature_chart_sorted ⟨["Feature", "Importance"],
      [[("Feature", Cell.str "age"), ("Importance", Cell.num 3)],
       [("Feature", Cell.str "income"), ("Importance", Cell.num 1)]]⟩
     (by decide) (by decide)).2.2⟩

/-! ## Top-N selection (`app.py` lines 355-362)

`data['product_sales'].nlargest(10, 'Sales')`: the first ten rows in
descending `Sales` order. pandas `keep='first'` prioritises earlier rows
among duplicates, so `nlargest` is a stable descending sort by the column
followed by truncation to ten; a missing `Sales` value sorts last. -/

/-- The descending sort key of a row: its numeric `Sales`, with a missing
value sorting last. -/
def salesKey (r : Row) : WithBot ℚ :=
  match Cell.toNum (r.get "Sales") with
  | some q => (q : WithBot ℚ)
  | none => ⊥

/-- The comparison `nlargest(·, 'Sales')` orders by: descending key. -/
def descSales (a b : Row) : Bool :=
  decide (salesKey b ≤ salesKey a)

/-- pandas `df.nlargest(n, 'Sales')`: stable descending sort, truncated to `n`. -/
def topN (n : Nat) (rows : List Row) : List Row :=
  (rows.mergeSort descSales).take n

/-- Lines 355-362: the Top-10-products chart data, guarded by membership
of `Product` and `Sales`. -/
def top_products (d : Dataset) : Option (List Row) :=
  if "Product" ∈ d.cols ∧ "Sales" ∈ d.cols then some (topN 10 d.rows) else none

/-- Relation `descSales` is transitive. -/
theorem descSales_trans (a b c : Row) :
    descSales a b = true → descSales b c = true → descSales a c = true := by
  simp only [descSales, decide_eq_true_eq]
  intro h1 h2
  exact le_trans h2 h1

/-- Relation `descSales` is total. -/
theorem descSales_total (a b : Row) :
    (descSales a b || descSales b a) = true := by
  simp only [descSales, Bool.or_eq_true, decide_eq_true_eq]
  exact le_total _ _

/-- C6 confirmed: top-10 selection takes `min 10 n` rows, its output is
descending in the sales key, the output followed by the dropped remainder
of the stable sort is still descending and is a permutation of the input
(so the selected rows are exactly the highest-sales ones — every selected
row's key is at least every dropped row's key), repeating the selection on
its own output changes nothing, and the guarded chart site applies
exactly this transform. -/
theorem C6_topN_selection (rows : List Row) :
    (topN 10 rows).length = min 10 rows.length ∧
    (topN 10 rows).Pairwise (fun a b => salesKey b ≤ salesKey a) ∧
    ((topN 10 rows) ++ (rows.mergeSort descSales).drop 10).Pairwise
      (fun a b => salesKey b ≤ salesKey a) ∧
    ((topN 10 rows) ++ (rows.mergeSort descSales).drop 10).Perm rows ∧
    topN 10 (topN 10 rows) = topN 10 rows ∧
    top_products ⟨["Product", "Sales"], rows⟩ = some (topN 10 rows) := by
  have hs := List.sorted_mergeSort descSales_trans descSales_total rows
  have hs' : (rows.mergeSort descSales).Pairwise (fun a b => salesKey b ≤ salesKey a) :=
    hs.imp (fun h => by simpa [descSales] using h)
  refine ⟨?_, ?_, ?_, ?_, ?_, ?_⟩
  · simp [topN]
  · exact hs'.sublist (List.take_sublist 10 _)
  · rw [topN, List.take_append_drop]
    exact hs'
  · rw [topN, List.take_append_drop]
    exact List.mergeSort_perm rows descSales
  · have hsorted : List.Pairwise (fun a b => descSales a b = true) (topN 10 rows) :=
      hs.sublist (List.take_sublist 10 _)
    rw [topN, List.mergeSort_of_sorted hsorted]
    simp [topN, List.take_take]
  · simp [top_products]

/-! ## Category aggregation (`app.py` lines 365-369)

`data['product_sales'].groupby('Category')['Sales'].sum()`: rows are
grouped by their `Category` label (duplicate labels merge into one
group), and the `Sales` values are summed per group with missing values
skipped (`skipna`), so a row whose measure is missing contributes `0`.
Text cells in the measure column carry no numeric content and likewise
contribute `0` through `Cell.toNum`. -/

/-- The numeric contribution of a row's `Sales` cell: its value, or `0`
when missing. -/
def measureVal (r : Row) : ℚ :=
  (Cell.toNum (r.get "Sales")).getD 0

/-- The per-group sum of the `groupby('Category')['Sales'].sum()` result:
the sum of the measure over the rows carrying label `k`. -/
def category_sum (rows : List Row) (k : Cell) : ℚ :=
  ((rows.filter (fun r => r.get "Category" == k)).map measureVal).sum

/-- The distinct non-missing `Category` labels (pandas drops NaN group
keys). -/
def category_keys (rows : List Row) : List Cell :=
  ((rows.map (fun r => r.get "Category")).filter (fun c => !(c == Cell.na))).dedup

/-- Lines 365-369: the category-sales pie data — one `(label, sum)` pair
per distinct label, guarded by membership of `Category` and `Sales`. -/
def category_sales (d : Dataset) : Option (List (Cell × ℚ)) :=
  if "Category" ∈ d.cols ∧ "Sales" ∈ d.cols then
    some ((category_keys d.rows).map (fun k => (k, category_sum d.rows k)))
  else none

/-- A product row with the given category label and sales value. -/
def exRow (c : String) (v : ℚ) : Row :=
  [("Category", Cell.str c), ("Sales", Cell.num v)]

/-- C7 confirmed: category aggregation over `[(A,10),(A,5),(B,7)]` yields
`A ↦ 15` and `B ↦ 7`; the per-group sum is additive over row blocks
(duplicate labels anywhere in the input merge into one group); a row
whose measure is missing contributes `0` to its group; and a row carrying
label `s` with value `v` adds exactly `v` to group `s`. -/
theorem C7_category_aggregation :
    category_sum [exRow "A" 10, exRow "A" 5, exRow "B" 7] (Cell.str "A") = 15 ∧
    category_sum [exRow "A" 10, exRow "A" 5, exRow "B" 7] (Cell.str "B") = 7 ∧
    (∀ (rows1 rows2 : List Row) (k : Cell),
      category_sum (rows1 ++ rows2) k = category_sum rows1 k + category_sum rows2 k) ∧
    (∀ (c k : Cell) (rows : List Row),
      category_sum ([("Category", c), ("Sales", Cell.na)] :: rows) k =
        category_sum rows k) ∧
    (∀ (s : String) (v : ℚ) (rows : List Row),
      category_sum (exRow s v :: rows) (Cell.str s) =
        v + category_sum rows (Cell.str s)) := by
  refine ⟨?_, ?_, fun rows1 rows2 k => ?_, fun c k rows => ?_,
    fun s v rows => ?_⟩
  · have hf : List.filter (fun r => r.get "Category" == Cell.str "A")
        [exRow "A" 10, exRow "A" 5, exRow "B" 7] = [exRow "A" 10, exRow "A" 5] := rfl
    have hm : List.map measureVal [exRow "A" 10, exRow "A" 5] = [10, 5] := rfl
    rw [category_sum, hf, hm]
    norm_num
  · have hf : List.filter (fun r => r.get "Category" == Cell.str "B")
        [exRow "A" 10, exRow "A" 5, exRow "B" 7] = [exRow "B" 7] := rfl
    have hm : List.map measureVal [exRow "B" 7] = [7] := rfl
    rw [category_sum, hf, hm]
    norm_num
  · simp [category_sum]
  · by_cases h : c = k <;>
      simp [category_sum, List.filter_cons, Row.get, List.find?, measureVal,
        Cell.toNum, h]
  · simp [category_sum, List.filter_cons, exRow, Row.get, List.find?, measureVal,
      Cell.toNum]

/-! ## Degradation of guarded sites (claim C5) -/

/-- C5 counterexample: against a dataset exposing neither `Revenue` nor
`Sales`, the Overview revenue KPI site renders nothing at all — the
metric does not degrade to a visible "unavailable" value or placeholder,
it is silently omitted. -/
theorem C5_counterexample :
    total_revenue_kpi amountOnly = KPI.skipped ∧
    (total_revenue_kpi amountOnly).isRendered = false := by
  constructor <;> decide

/-- C5 amended: a missing or unresolved column at the guarded metric and
chart sites never produces an error — the dependent element is silently
skipped (nothing is rendered; there is no visible "unavailable" value and
no placeholder chart); the correlation heatmap, by contrast, is built
unconditionally from the whole dataset with no column guard at all. -/
theorem C5_amended (d : Dataset) :
    ("Revenue" ∉ d.cols → "Sales" ∉ d.cols → total_revenue_kpi d = KPI.skipped) ∧
    ("ConversionRate" ∉ d.cols → "Conversions" ∉ d.cols →
      avg_conversion_kpi d = KPI.skipped) ∧
    ("LeadScore" ∉ d.cols → avg_score_kpi d = KPI.skipped) ∧
    (¬ ("Stage" ∈ d.cols ∧ "Count" ∈ d.cols) → funnel_chart d = none) ∧
    (¬ ("Feature" ∈ d.cols ∧ "Importance" ∈ d.cols) → feature_chart d = none) ∧
    correlation_heatmap d = ChartSpec.heatmap d.rows := by
  refine ⟨fun h1 h2 => ?_, fun h1 h2 => ?_, fun h => ?_, fun h => ?_, fun h => ?_, rfl⟩
  · simp [total_revenue_kpi, h1, h2]
  · simp [avg_conversion_kpi, h1, h2]
  · simp [avg_score_kpi, h]
  · simp [funnel_chart, h]
  · simp [feature_chart, h]

/-- C5 witness: the silent degradation at concrete datasets. -/
theorem C5_witness :
    total_revenue_kpi ⟨["Product"], []⟩ = KPI.skipped ∧
    funnel_chart ⟨["Stage"], []⟩ = none :=
  ⟨(C5_amended ⟨["Product"], []⟩).1 (by decide) (by decide),
   (C5_amended ⟨["Stage"], []⟩).2.2.2.1 (by decide)⟩

/-! ## View dispatcher (`app.py` lines 99-104 and 114-511)

The sidebar selectbox offers ten identifiers; the main body is an
`if`/`elif` chain on `analysis_type` with no `else` arm, so an identifier
outside the enumeration renders none of the views' content. Each declared
branch issues a fixed list of metric, chart and table requests. -/

/-- One request a view issues against the loaded data. -/
inductive Request where
  | metric (label : String)
  | chart (kind : String)
  | table (source : String)
deriving DecidableEq

/-- The selectbox enumeration of `app.py` lines 99-104. -/
def viewNames : List String :=
  ["Overview", "Customer Analysis", "Campaign Performance", "Channel Attribution",
   "Product Sales", "Geographic Analysis", "Customer Journey", "Lead Scoring",
   "Feature Importance", "Correlation Analysis"]

/-- The `if`/`elif` dispatch of `app.py` lines 114-511: the ordered
metric/chart/table requests each declared view issues; the missing `else`
arm makes every other identifier produce the empty request list. -/
def viewRequests (v : String) : List Request :=
  if v = "Overview" then
    [.metric "Total Customers", .metric "Total Revenue", .metric "Total Campaigns",
     .metric "Avg Conversion Rate", .metric "Avg Lead Score",
     .table "campaign_performance", .table "customer_data",
     .chart "bar", .chart "pie"]
  else if v = "Customer Analysis" then
    [.metric "Total Customers", .metric "Average Age", .metric "Avg Income",
     .chart "histogram", .chart "box", .table "customer_data"]
  else if v = "Campaign Performance" then
    [.metric "Total Campaigns", .metric "Total Budget", .metric "Total Conversions",
     .metric "Average ROI", .chart "bar", .chart "scatter",
     .table "campaign_performance"]
  else if v = "Channel Attribution" then
    [.chart "bar", .chart "pie", .table "channel_attribution"]
  else if v = "Product Sales" then
    [.metric "Total Products", .metric "Total Sales", .metric "Total Units Sold",
     .chart "bar", .chart "pie", .table "product_sales"]
  else if v = "Geographic Analysis" then
    [.chart "bar", .chart "pie", .table "geographic_data"]
  else if v = "Customer Journey" then
    [.chart "funnel", .table "funnel_data", .table "customer_journey"]
  else if v = "Lead Scoring" then
    [.metric "Average Lead Score", .metric "Max Lead Score", .metric "Total Leads",
     .chart "histogram", .chart "box", .table "lead_scoring_results"]
  else if v = "Feature Importance" then
    [.chart "barh", .table "feature_importance"]
  else if v = "Correlation Analysis" then
    [.chart "heatmap", .table "correlation_matrix"]
  else []

/-- C4 counterexample: an identifier outside the enumeration produces the
empty view — the dispatch falls through every branch and renders nothing;
there is no `ViewNotFound` failure anywhere in the chain. -/
theorem C4_counterexample :
    "Sales Overview" ∉ viewNames ∧ viewRequests "Sales Overview" = [] := by
  constructor <;> decide

/-- C4 amended: every identifier inside the declared enumeration resolves
to a non-empty list of metric/chart requests, while an identifier outside
the enumeration silently yields the empty view (no requests, no
`ViewNotFound` failure). -/
theorem C4_amended (v : String) :
    (v ∈ viewNames → viewRequests v ≠ []) ∧
    (v ∉ viewNames → viewRequests v = []) := by
  constructor
  · intro hv
    fin_cases hv <;> decide
  · intro hv
    have h1 : ¬ v = "Overview" := fun h => hv (by simp [viewNames, h])
    have h2 : ¬ v = "Customer Analysis" := fun h => hv (by simp [viewNames, h])
    have h3 : ¬ v = "Campaign Performance" := fun h => hv (by simp [viewNames, h])
    have h4 : ¬ v = "Channel Attribution" := fun h => hv (by simp [viewNames, h])
    have h5 : ¬ v = "Product Sales" := fun h => hv (by simp [viewNames, h])
    have h6 : ¬ v = "Geographic Analysis" := fun h => hv (by simp [viewNames, h])
    have h7 : ¬ v = "Customer Journey" := fun h => hv (by simp [viewNames, h])
    have h8 : ¬ v = "Lead Scoring" := fun h => hv (by simp [viewNames, h])
    have h9 : ¬ v = "Feature Importance" := fun h => hv (by simp [viewNames, h])
    have h10 : ¬ v = "Correlation Analysis" := fun h => hv (by simp [viewNames, h])
    simp [viewRequests, h1, h2, h3, h4, h5, h6, h7, h8, h9, h10]

/-- C4 witness: a declared view has requests; an undeclared one has none. -/
theorem C4_witness :
    viewRequests "Overview" ≠ [] ∧ viewRequests "Sales Report" = [] :=
  ⟨(C4_amended "Overview").1 (by decide), (C4_amended "Sales Report").2 (by decide)⟩

/-! ## The render pass (claim C9)

The body of `app.py` only reads the loaded frames: every derived table is
a fresh value — `value_counts().reset_index()` builds a new frame (whose
columns are then renamed on the fresh frame, lines 180-181 and 384-385),
`sort_values` returns a sorted copy (line 481), `nlargest` a truncated
copy (line 357), `head(n)` a prefix copy, `groupby` an aggregation frame.
`renderView` threads the store through the dispatch so that the claim
"rendering never mutates a loaded dataset" is the statement that the
store component of the result is the input store. -/

/-- Site pattern `st.metric(label, len(df))`. -/
def len_kpi (label : String) (d : Dataset) : KPI :=
  KPI.shown label (some d.rows.length)

/-- A guarded `st.metric(label, df[c].sum())` site. -/
def sum_kpi (label : String) (c : String) (d : Dataset) : KPI :=
  if c ∈ d.cols then KPI.shown label (some (colSum (d.col c))) else KPI.skipped

/-- A guarded `st.metric(label, df[c].mean())` site. -/
def mean_kpi (label : String) (c : String) (d : Dataset) : KPI :=
  if c ∈ d.cols then KPI.shown label (colMean (d.col c)) else KPI.skipped

/-- A guarded `st.metric(label, df[c].max())` site. -/
def max_kpi (label : String) (c : String) (d : Dataset) : KPI :=
  if c ∈ d.cols then KPI.shown label (colMax (d.col c)) else KPI.skipped

/-- pandas `series.value_counts()`: one `(value, count)` pair per distinct
non-missing value, ordered by descending count. A fresh table, not a view
of the source column. -/
def value_counts (cells : List Cell) : List (Cell × Nat) :=
  ((cells.filter (fun c => !(c == Cell.na))).dedup.map
    (fun v => (v, (cells.filter (fun c => c == v)).length))).mergeSort
    (fun a b => decide (b.2 ≤ a.2))

/-- Lines 167-175: Overview product-sales bar over the first ten rows,
guarded by membership of `Product` and `Sales`. -/
def overview_sales_chart (d : Dataset) : Option ChartSpec :=
  if "Product" ∈ d.cols ∧ "Sales" ∈ d.cols then
    some (ChartSpec.bar ((d.rows.take 10).map (fun r => r.get "Product"))
      ((d.rows.take 10).map (fun r => r.get "Sales")))
  else none

/-- Lines 177-183 (and the Geographic pie variant): region distribution
pie over the fresh `value_counts` table, guarded by `Region`. -/
def region_pie (d : Dataset) : Option ChartSpec :=
  if "Region" ∈ d.cols then
    some (ChartSpec.pie ((value_counts (d.col "Region")).map (fun p => Cell.num p.2))
      ((value_counts (d.col "Region")).map (fun p => p.1)))
  else none

/-- Lines 382-389: region distribution bar over the fresh `value_counts`
table. -/
def region_bar (d : Dataset) : Option ChartSpec :=
  if "Region" ∈ d.cols then
    some (ChartSpec.bar ((value_counts (d.col "Region")).map (fun p => p.1))
      ((value_counts (d.col "Region")).map (fun p => Cell.num p.2)))
  else none

/-- Lines 391-397: country distribution pie over the first ten rows of
the fresh `value_counts` table. -/
def country_pie (d : Dataset) : Option ChartSpec :=
  if "Country" ∈ d.cols then
    some (ChartSpec.pie
      (((value_counts (d.col "Country")).take 10).map (fun p => Cell.num p.2))
      (((value_counts (d.col "Country")).take 10).map (fun p => p.1)))
  else none

/-- A guarded `px.bar(df, x=cx, y=cy)` site. -/
def bar_chart (cx cy : String) (d : Dataset) : Option ChartSpec :=
  if cx ∈ d.cols ∧ cy ∈ d.cols then
    some (ChartSpec.bar (d.col cx) (d.col cy))
  else none

/-- A guarded `px.pie(df, values=cv, names=cn)` site (guard order as in
the code: names column first). -/
def pie_chart (cn cv : String) (d : Dataset) : Option ChartSpec :=
  if cn ∈ d.cols ∧ cv ∈ d.cols then
    some (ChartSpec.pie (d.col cv) (d.col cn))
  else none

/-- A guarded `px.histogram(df, x=c, nbins=n)` site. -/
def hist_chart (c : String) (n : Nat) (d : Dataset) : Option ChartSpec :=
  if c ∈ d.cols then some (ChartSpec.histogram (d.col c) n) else none

/-- A guarded `px.box(df, y=c)` site. -/
def box_chart (c : String) (d : Dataset) : Option ChartSpec :=
  if c ∈ d.cols then some (ChartSpec.box (d.col c)) else none

/-- A guarded `px.scatter(df, x=cx, y=cy)` site. -/
def scatter_chart (cx cy : String) (d : Dataset) : Option ChartSpec :=
  if cx ∈ d.cols ∧ cy ∈ d.cols then
    some (ChartSpec.scatter (d.col cx) (d.col cy))
  else none

/-- Lines 355-362: the Top-10-products bar chart. -/
def top_products_chart (d : Dataset) : Option ChartSpec :=
  if "Product" ∈ d.cols ∧ "Sales" ∈ d.cols then
    some (ChartSpec.bar ((topN 10 d.rows).map (fun r => r.get "Product"))
      ((topN 10 d.rows).map (fun r => r.get "Sales")))
  else none

/-- Lines 365-369: the sales-by-category pie over the grouped sums. -/
def category_pie (d : Dataset) : Option ChartSpec :=
  if "Category" ∈ d.cols ∧ "Sales" ∈ d.cols then
    some (ChartSpec.pie ((category_keys d.rows).map (fun k => Cell.num (category_sum d.rows k)))
      ((category_keys d.rows).map (fun k => k)))
  else none

/-- One rendered element of a view: a KPI card, a chart site (whose value
is `none` when the site's guard failed and nothing was drawn), or a data
table. -/
inductive Element where
  | kpi (k : KPI)
  | chart (c : Option ChartSpec)
  | table (rows : List Row)

/-- The full render pass of `app.py` lines 114-511: dispatch on the
selected view, read the loaded frames, compute the derived values, and
return the store together with the rendered elements. Every derived table
is computed as a fresh value; no branch writes to the store. -/
def renderView (v : String) (store : DataStore) : DataStore × List Element :=
  if v = "Overview" then
    (store,
      [.kpi (len_kpi "Total Customers" store.customer_data),
       .kpi (total_revenue_kpi store.product_sales),
       .kpi (len_kpi "Total Campaigns" store.campaign_performance),
       .kpi (avg_conversion_kpi store.funnel_data),
       .kpi (mean_kpi "Avg Lead Score" "LeadScore" store.lead_scoring_results),
       .table (store.campaign_performance.rows.take 10),
       .table (store.customer_data.rows.take 10),
       .chart (overview_sales_chart store.product_sales),
       .chart (region_pie store.geographic_data)])
  else if v = "Customer Analysis" then
    (store,
      [.kpi (len_kpi "Total Customers" store.customer_data),
       .kpi (mean_kpi "Average Age" "Age" store.customer_data),
       .kpi (mean_kpi "Avg Income" "Income" store.customer_data),
       .chart (hist_chart "Age" 30 store.customer_data),
       .chart (box_chart "Income" store.customer_data),
       .table store.customer_data.rows])
  else if v = "Campaign Performance" then
    (store,
      [.kpi (len_kpi "Total Campaigns" store.campaign_performance),
       .kpi (sum_kpi "Total Budget" "Budget" store.campaign_performance),
       .kpi (sum_kpi "Total Conversions" "Conversions" store.campaign_performance),
       .kpi (mean_kpi "Average ROI" "ROI" store.campaign_performance),
       .chart (bar_chart "CampaignName" "Conversions" store.campaign_performance),
       .chart (scatter_chart "Budget" "ROI" store.campaign_performance),
       .table store.campaign_performance.rows])
  else if v = "Channel Attribution" then
    (store,
      [.chart (bar_chart "Channel" "Conversions" store.channel_attribution),
       .chart (pie_chart "Channel" "Revenue" store.channel_attribution),
       .table store.channel_attribution.rows])
  else if v = "Product Sales" then
    (store,
      [.kpi (len_kpi "Total Products" store.product_sales),
       .kpi (sum_kpi "Total Sales" "Sales" store.product_sales),
       .kpi (sum_kpi "Total Units Sold" "Quantity" store.product_sales),
       .chart (top_products_chart store.product_sales),
       .chart (category_pie store.product_sales),
       .table store.product_sales.rows])
  else if v = "Geographic Analysis" then
    (store,
      [.chart (region_bar store.geographic_data),
       .chart (country_pie store.geographic_data),
       .table store.geographic_data.rows])
  else if v = "Customer Journey" then
    (store,
      [.chart (funnel_chart store.funnel_data),
       .table store.funnel_data.rows,
       .table (store.customer_journey.rows.take 20)])
  else if v = "Lead Scoring" then
    (store,
      [.kpi (avg_score_kpi store.lead_scoring_results),
       .kpi (max_kpi "Max Lead Score" "LeadScore" store.lead_scoring_results),
       .kpi (len_kpi "Total Leads" store.lead_scoring_results),
       .chart (hist_chart "LeadScore" 30 store.lead_scoring_results),
       .chart (box_chart "LeadScore" store.lead_scoring_results),
       .table store.lead_scoring_results.rows])
  else if v = "Feature Importance" then
    (store,
      [.chart (feature_chart store.feature_importance),
       .table store.feature_importance.rows])
  else if v = "Correlation Analysis" then
    (store,
      [.chart (some (correlation_heatmap store.correlation_matrix)),
       .table store.correlation_matrix.rows])
  else (store, [])

/-- C9 confirmed: rendering any view — declared or not — leaves every
loaded dataset exactly as it was at load time; the sorted, truncated and
counted tables a render produces (`sorted_features`, `topN`,
`value_counts`, `category_sum`) are fresh values, not in-place
modifications of the store. -/
theorem C9_render_immutable (v : String) (store : DataStore) :
    (renderView v store).1 = store := by
  unfold renderView
  repeat' split
  all_goals rfl

end Dashboard
